import Mathlib

/-!
Verification of the customer-support chatbot repository.

Text is embedded as `List Char` (Python `str`); `str.split`, `str.join`,
slicing and truthiness are translated structurally from the source files
`main.py`, `config.py`, `services/streaming.py`, `services/mcp_client.py`
and `services/intent_classifier.py`.
-/

/-- Membership of `pat` as a contiguous substring of `s`
(Python `pat in s`). -/
def isSubstring (pat : List Char) : List Char → Bool
  | [] => pat.isEmpty
  | c :: rest => pat.isPrefixOf (c :: rest) || isSubstring pat rest

/-- Python `s.split(sep)` for a one-character separator: always returns at
least one piece, empty pieces are kept. -/
def splitOnChar (sep : Char) : List Char → List (List Char)
  | [] => [[]]
  | c :: rest =>
    if c = sep then [] :: splitOnChar sep rest
    else
      match splitOnChar sep rest with
      | [] => [[c]]
      | l :: ls => (c :: l) :: ls

/-- Python `sep.join(xs)`. -/
def joinSep (sep : List Char) : List (List Char) → List Char
  | [] => []
  | [x] => x
  | x :: y :: rest => x ++ sep ++ joinSep sep (y :: rest)

/-- Characters treated as whitespace by Python `str.strip()` (ASCII range). -/
def isPySpace (c : Char) : Bool :=
  c = ' ' || c = '\t' || c = '\n' || c = '\r' || c = '\x0b' || c = '\x0c'

/-- A line qualifies as a product record in the truncation step of
`services/streaming.py` lines 99-101: Python `line.strip() and "[" in line`. -/
def qualifiesAsProduct (l : List Char) : Bool :=
  l.any (fun c => !isPySpace c) && l.contains '['

/-- Embedding of `StreamingService._handle_product_truncation`
(`services/streaming.py` lines 91-113; the inline copy is `main.py`
lines 455-469 with `enabled = true`, `maxDisplay = 8`). -/
def handleProductTruncation (enabled : Bool) (maxDisplay : Nat)
    (response : List Char) : List Char :=
  if !enabled then response
  else if isSubstring "Found 200 products:".toList response then
    let lines := splitOnChar '\n' response
    let summary := lines.headD []
    let products := ((lines.drop 1).filter qualifiesAsProduct).take maxDisplay
    let truncated :=
      summary ++ "\n\n".toList ++ joinSep "\n\n".toList (products.take maxDisplay)
    if products.length > maxDisplay then
      truncated ++ "\n\n... and ".toList
        ++ (toString ((200 : Int) - (maxDisplay : Int))).toList
        ++ " more products.\nType \x27search [keyword]\x27 to find specific items or \x27list monitors\x27 for category browsing.".toList
    else truncated
  else response

/-- Footer appended for the PLACE_ORDER intent
(`services/streaming.py` line 41). -/
def placeOrderFooter : List Char :=
  "\n\n🛒 To place an order for any of these products, please contact our sales team or visit our website. Note: This demo doesn\x27t process actual orders.".toList

/-- The terminal sentinel chunk (`services/streaming.py` line 57,
`main.py` line 497). -/
def doneChunk : List Char := "[DONE]".toList

/-- Emission loop shared by the three pacing tiers: before each piece the
disconnect signal is polled (`request.is_disconnected()`); on the first
check that observes a disconnect the loop stops. `k` numbers the checks. -/
def streamChunks (disc : Nat → Bool) : List (List Char) → Nat → List (List Char)
  | [], _ => []
  | p :: rest, k => if disc k then [] else p :: streamChunks disc rest (k + 1)

/-- Number of pieces emitted before the first disconnect check among the
first `n` checks (numbered from `k`) that returns true. -/
def stopCount (disc : Nat → Bool) : Nat → Nat → Nat
  | 0, _ => 0
  | n + 1, k => if disc k then 0 else stopCount disc n (k + 1) + 1

/-- Pieces of the character tier (`_stream_by_character`,
`services/streaming.py` lines 59-67): one chunk per character. -/
def charPieces (response : List Char) : List (List Char) :=
  response.map (fun c => [c])

/-- Pieces of the word tier (`_stream_by_word`, `services/streaming.py`
lines 69-78): `response.split(" ")`, each chunk is `word + " "`. -/
def wordPieces (response : List Char) : List (List Char) :=
  (splitOnChar ' ' response).map (fun w => w ++ [' '])

/-- Pieces of the line tier (`_stream_by_line`, `services/streaming.py`
lines 80-89): `response.split("\n")`, each chunk is `line + "\n"`. -/
def linePieces (response : List Char) : List (List Char) :=
  (splitOnChar '\n' response).map (fun l => l ++ ['\n'])

/-- Character-tier streaming loop with disconnect polling. -/
def streamByCharacter (disc : Nat → Bool) (response : List Char) :
    List (List Char) :=
  streamChunks disc (charPieces response) 0

/-- Word-tier streaming loop with disconnect polling. -/
def streamByWord (disc : Nat → Bool) (response : List Char) :
    List (List Char) :=
  streamChunks disc (wordPieces response) 0

/-- Line-tier streaming loop with disconnect polling. -/
def streamByLine (disc : Nat → Bool) (response : List Char) :
    List (List Char) :=
  streamChunks disc (linePieces response) 0

/-- Configuration fields read by `StreamingService.__init__`
(`services/streaming.py` lines 13-20) with the defaults of `config.py`. -/
structure StreamConfig where
  charThreshold : Nat
  wordThreshold : Nat
  maxDisplay : Nat
  truncationEnabled : Bool

/-- Defaults from `config.py` lines 35-45: thresholds 200/1000, cap 8,
truncation enabled. -/
def defaultStreamConfig : StreamConfig :=
  { charThreshold := 200, wordThreshold := 1000, maxDisplay := 8,
    truncationEnabled := true }

/-- Preprocessing of `StreamingService.stream_response`
(`services/streaming.py` lines 36-41): truncation, then the PLACE_ORDER
footer. -/
def processedText (cfg : StreamConfig) (intent : Option String)
    (response : List Char) : List Char :=
  if intent = some "PLACE_ORDER" then
    handleProductTruncation cfg.truncationEnabled cfg.maxDisplay response
      ++ placeOrderFooter
  else handleProductTruncation cfg.truncationEnabled cfg.maxDisplay response

/-- Tier choice of `StreamingService.stream_response`
(`services/streaming.py` lines 45-54): select the pacing tier by the
length of the processed text. -/
def streamPieces (cfg : StreamConfig) (intent : Option String)
    (response : List Char) : List (List Char) :=
  if (processedText cfg intent response).length ≤ cfg.charThreshold then
    charPieces (processedText cfg intent response)
  else if (processedText cfg intent response).length ≤ cfg.wordThreshold then
    wordPieces (processedText cfg intent response)
  else linePieces (processedText cfg intent response)

/-- Content chunks emitted by `stream_response` for a given disconnect
signal (the loop of the selected tier). -/
def streamContent (cfg : StreamConfig) (disc : Nat → Bool)
    (intent : Option String) (response : List Char) : List (List Char) :=
  streamChunks disc (streamPieces cfg intent response) 0

/-- Full chunk sequence of `stream_response`: the tier loop followed by the
unconditional `yield` of the `[DONE]` sentinel (`services/streaming.py`
lines 46-57). -/
def streamResponse (cfg : StreamConfig) (disc : Nat → Bool)
    (intent : Option String) (response : List Char) : List (List Char) :=
  streamContent cfg disc intent response ++ [doneChunk]

/-- A concrete response text for exercising the truncation step: it starts
with the marker line and carries nine qualifying product lines. -/
def truncationProbe : List Char :=
  "Found 200 products:\n[P0] a\n[P1] a\n[P2] a\n[P3] a\n[P4] a\n[P5] a\n[P6] a\n[P7] a\n[P8] a".toList

/-- Test customer credential table (`config.py` lines 67-78, duplicated as
the module-level dict of `main.py` lines 24-35). -/
def CUSTOMERS : List (String × String) :=
  [("donaldgarcia@example.net", "7912"),
   ("michellejames@example.com", "1520"),
   ("laurahenderson@example.org", "1488"),
   ("spenceamanda@example.org", "2535"),
   ("glee@example.net", "4582"),
   ("williamsthomas@example.net", "4811"),
   ("justin78@example.net", "9279"),
   ("jason31@example.com", "1434"),
   ("samuel81@example.com", "4257"),
   ("williamleon@example.net", "9928")]

/-- Python `CUSTOMERS.get(email)` for a present string key: the stored pin,
or `None` when the email is not a key. -/
def customersLookup (email : String) : Option String :=
  (CUSTOMERS.find? (fun p => p.1 == email)).map (fun p => p.2)

/-- Python `CUSTOMERS.get(email)` where the request body may omit the
field, in which case `data.get("email")` is `None` and the dict lookup
yields `None`. -/
def customersGet : Option String → Option String
  | none => none
  | some e => customersLookup e

/-- Embedding of the `/auth` endpoint (`main.py` lines 91-98, identical in
`main_refactored.py` lines 36-42): the pair is the `success` flag
`CUSTOMERS.get(email) == pin` and the `customer` field, the email on
success and `None` otherwise. Absent body fields are `none`. -/
def authenticate (email pin : Option String) : Bool × Option String :=
  (customersGet email == pin,
   if customersGet email == pin then email else none)

/-- Intent categories that qualify for MCP routing (`main.py`
lines 119-128, `main_refactored.py` lines 88-97). -/
def qualifyingIntents : List String :=
  ["SEARCH_PRODUCTS", "ORDER_STATUS", "PLACE_ORDER", "WARRANTY_SUPPORT",
   "ACCOUNT_INFO"]

/-- The tool-routing gate `intent in [...] and confidence > 0.7`
(`main.py` line 129; `main_refactored.py` line 97 with the default
threshold 0.7 of `config.py` line 29). Confidence is embedded as a
rational. -/
def mcpTriggered (intent : String) (confidence : ℚ) : Bool :=
  qualifyingIntents.contains intent && decide (confidence > 7 / 10)

/-- Embedding of `get_simple_response` (`services/streaming.py`
lines 116-125, identical in `main.py` lines 508-517): lowercase the
message, then match greeting, thanks and goodbye substrings. -/
def getSimpleResponse (msg customer : List Char) : List Char :=
  let m := msg.map Char.toLower
  if isSubstring "hello".toList m || isSubstring "hi".toList m
      || isSubstring "hey".toList m then
    "Hello ".toList ++ customer
      ++ "! How can I help with your computer products today?".toList
  else if isSubstring "thank".toList m || isSubstring "thanks".toList m then
    "You\x27re welcome! Is there anything else I can help you with?".toList
  else if isSubstring "bye".toList m || isSubstring "goodbye".toList m then
    "Goodbye! Have a great day, and feel free to reach out if you need any help.".toList
  else
    "I can help with orders, products, warranties, and technical issues. What do you need?".toList

/-- Response handed to the streaming stage by the chat endpoint
(`main.py` lines 116-129, `main_refactored.py` lines 84-98): it starts as
the simple pattern response and is replaced by the outcome of the MCP
branch exactly when the gate triggers; the branch outcome depends on the
network and is abstracted as the `mcpBranch` argument. -/
def chatDelivered (intent : String) (confidence : ℚ)
    (message customer mcpBranch : List Char) : List Char :=
  if mcpTriggered intent confidence then mcpBranch
  else getSimpleResponse message customer

/-- Parsed JSON values as produced by `response.json()` / `json.loads`. -/
inductive Json where
  | null
  | bool (b : Bool)
  | num (q : ℚ)
  | str (s : String)
  | arr (xs : List Json)
  | obj (fields : List (String × Json))

mutual

/-- Python `repr` of a parsed JSON value, used by `str()` on containers.
Rendering of non-integral numbers and of string escapes is approximated;
no theorem below depends on those corners. -/
def pyRepr : Json → String
  | .null => "None"
  | .bool true => "True"
  | .bool false => "False"
  | .num q => if q.den = 1 then toString q.num else toString q
  | .str s => "\x27" ++ s ++ "\x27"
  | .arr xs => "[" ++ ", ".intercalate (pyReprList xs) ++ "]"
  | .obj fs => "\x7b" ++ ", ".intercalate (pyReprFields fs) ++ "\x7d"

def pyReprList : List Json → List String
  | [] => []
  | x :: xs => pyRepr x :: pyReprList xs

def pyReprFields : List (String × Json) → List String
  | [] => []
  | (k, v) :: fs => ("\x27" ++ k ++ "\x27: " ++ pyRepr v) :: pyReprFields fs

end

/-- Python `str()` of a parsed JSON value: a string renders as itself,
containers render by `repr`. -/
def pyStrTop : Json → String
  | .str s => s
  | j => pyRepr j

/-- Python truthiness of a parsed JSON value. -/
def pyTruthy : Json → Bool
  | .null => false
  | .bool b => b
  | .num q => decide (q ≠ 0)
  | .str s => !s.isEmpty
  | .arr xs => !xs.isEmpty
  | .obj fs => !fs.isEmpty

/-- Python `key in j`: key lookup on a dict, element equality on a list,
substring test on a string; `TypeError` (modelled as `Except.error`) on
other values. -/
def pyIn (key : String) : Json → Except Unit Bool
  | .obj fs => .ok (fs.find? (fun p => p.1 == key)).isSome
  | .arr xs => .ok (xs.any (fun e => match e with | .str s => s == key | _ => false))
  | .str s => .ok (isSubstring key.toList s.toList)
  | _ => .error ()

/-- Python `j[key]`: `KeyError` when the key is missing, `TypeError` on
non-dict values. -/
def pyIndexKey (key : String) : Json → Except Unit Json
  | .obj fs =>
    match fs.find? (fun p => p.1 == key) with
    | some p => .ok p.2
    | none => .error ()
  | _ => .error ()

/-- Python `j[0]`: first element of a list, one-character string of a
string; `IndexError` when empty, `TypeError` on other values. -/
def pyIndexZero : Json → Except Unit Json
  | .arr xs => match xs with | [] => .error () | x :: _ => .ok x
  | .str s =>
    match s.toList with
    | [] => .error ()
    | c :: _ => .ok (.str (String.mk [c]))
  | _ => .error ()

/-- Python `len(j)`; `TypeError` on unsized values. -/
def pyLen : Json → Except Unit Nat
  | .str s => .ok s.length
  | .arr xs => .ok xs.length
  | .obj fs => .ok fs.length
  | _ => .error ()

/-- Python `j.get(key, default)`; `AttributeError` on non-dict values. -/
def pyGet (j : Json) (key : String) (dflt : Json) : Except Unit Json :=
  match j with
  | .obj fs => .ok (((fs.find? (fun p => p.1 == key)).map (fun p => p.2)).getD dflt)
  | _ => .error ()

/-- Python `j[:n]` raises `TypeError` unless `j` is sliceable; the debug
`print(f"... {content[:100]} ...")` lines in `_process_success_response`
make this observable, so the check is part of the embedding. -/
def pySliceCheck : Json → Except Unit Unit
  | .str _ => .ok ()
  | .arr _ => .ok ()
  | _ => .error ()

/-- Outcome of `MCPClient` response processing: the `{"content": ...}`
or `{"error": ...}` dict it returns. -/
inductive MCPOutcome where
  | content (value : Json)
  | failure (message : String)

/-- Content extraction of `_process_success_response`
(`services/mcp_client.py` lines 249-269): `structuredContent.result`
first, then `content[0].text`, else `str(result["result"])`; any raised
exception propagates to the surrounding handler. -/
def extractFromResult (r : Json) : Except Unit MCPOutcome := do
  let hasSC ← pyIn "structuredContent" r
  let cond1 ← if hasSC then do
      let sc ← pyIndexKey "structuredContent" r
      if pyTruthy sc then pyIn "result" sc else pure false
    else pure false
  if cond1 then do
    let sc ← pyIndexKey "structuredContent" r
    let content ← pyIndexKey "result" sc
    let _ ← pySliceCheck content
    pure (.content content)
  else do
    let hasC ← pyIn "content" r
    let cond2 ← if hasC then do
        let c ← pyIndexKey "content" r
        if pyTruthy c then do
          let n ← pyLen c
          if n > 0 then do
            let c0 ← pyIndexZero c
            pyIn "text" c0
          else pure false
        else pure false
      else pure false
    if cond2 then do
      let c ← pyIndexKey "content" r
      let c0 ← pyIndexZero c
      let t ← pyIndexKey "text" c0
      let _ ← pySliceCheck t
      pure (.content t)
    else
      pure (.content (.str (pyStrTop r)))

/-- Body of the `try` block of `_process_success_response`
(`services/mcp_client.py` lines 245-281) on an already parsed JSON body:
`if "result" in result and result["result"]` takes the extraction branch,
`elif "error" in result` builds the service-unavailable message from
`result["error"].get("message", "Unknown MCP error")`, else the generic
failure message. -/
def processSuccessAux (body : Json) : Except Unit MCPOutcome := do
  let hasR ← pyIn "result" body
  let rTruthy ← if hasR then do
      let r ← pyIndexKey "result" body
      pure (pyTruthy r)
    else pure false
  if hasR && rTruthy then do
    let r ← pyIndexKey "result" body
    extractFromResult r
  else do
    let hasE ← pyIn "error" body
    if hasE then do
      let e ← pyIndexKey "error" body
      let m ← pyGet e "message" (.str "Unknown MCP error")
      pure (.failure ("Service temporarily unavailable: " ++ pyStrTop m
        ++ ". Please try again later."))
    else
      pure (.failure "Unable to process your request at this time. Please try again.")

/-- Embedding of `_process_success_response` on an HTTP 200 response with
a parseable JSON body: the generic `except Exception` handler
(`services/mcp_client.py` lines 286-290) maps any raised exception to the
generic failure message. -/
def processSuccessBody (body : Json) : MCPOutcome :=
  match processSuccessAux body with
  | .ok out => out
  | .error _ =>
    .failure "Unable to process your request at this time. Please try again."

/-- Whether the body carries a `result` field whose value is truthy — the
condition of the first branch of `_process_success_response`. -/
def hasTruthyResult (body : Json) : Bool :=
  match body with
  | .obj fs =>
    match fs.find? (fun p => p.1 == "result") with
    | some p => pyTruthy p.2
    | none => false
  | _ => false

/-- Outcome of the result branch of `_process_success_response`: the
extracted content, or the generic failure if extraction raised. -/
def resultFieldOutcome (r : Json) : MCPOutcome :=
  match extractFromResult r with
  | .ok out => out
  | .error _ =>
    .failure "Unable to process your request at this time. Please try again."

/-- Outcome of the error branch of `_process_success_response`: the
service-unavailable message built from `error.get("message", ...)`, or the
generic failure if the error field is not a dict (`.get` raises). -/
def errorFieldOutcome (e : Json) : MCPOutcome :=
  match e with
  | .obj fs =>
    .failure ("Service temporarily unavailable: "
      ++ pyStrTop (((fs.find? (fun p => p.1 == "message")).map
            (fun p => p.2)).getD (.str "Unknown MCP error"))
      ++ ". Please try again later.")
  | _ =>
    .failure "Unable to process your request at this time. Please try again."

/-- A JSON body carrying both a truthy `result` field and an `error`
field. -/
def c3Body : Json :=
  .obj [("result", .obj [("content", .arr [.obj [("text", .str "hi")]])]),
        ("error", .obj [("message", .str "boom")])]

/-- A JSON body carrying only an `error` field. -/
def c3ErrorOnlyBody : List (String × Json) :=
  [("error", .obj [("message", .str "down")])]

/-- The fallback classification returned on any error by `classify_intent`
(`services/intent_classifier.py` lines 98-103, `main.py` lines 83-88). -/
def fallbackResult : Json :=
  .obj [("intent", .str "OTHER"), ("confidence", .num (1 / 2)),
        ("entities", .arr []), ("reasoning", .str "Classification failed")]

/-- Outcome of the `try` block of `classify_intent`: the transport call
(`chat.completions.create`, which may raise) followed by
`json.loads(...)` (which may raise on non-JSON or malformed output). -/
def classifyAttempt (transport : Except String String)
    (parse : String → Except String Json) : Except String Json :=
  match transport with
  | .error e => .error e
  | .ok raw => parse raw

/-- Embedding of `classify_intent` (`services/intent_classifier.py`
lines 31-113, `main.py` lines 44-88): the parsed result is returned as-is;
any exception raised inside the `try` block is absorbed by the
`except Exception` handler, which returns the fallback classification. -/
def classifyIntent (transport : Except String String)
    (parse : String → Except String Json) : Json :=
  match classifyAttempt transport parse with
  | .error _ => fallbackResult
  | .ok r => r

/-- Whether an attempt raised (its `Except` is an error). -/
def exceptRaised : Except String Json → Bool
  | .error _ => true
  | .ok _ => false

/-- Embedding of `_extract_customer_info` (`services/mcp_client.py`
lines 311-323): `None` when `"result"` is absent, else `str()` of the
`structuredContent.result` value, of `content[0]["text"]`, or of the
whole result; raised exceptions propagate to the caller's handler. -/
def extractCustomerInfoE (verifyResult : Json) : Except Unit (Option String) := do
  let hasR ← pyIn "result" verifyResult
  if !hasR then pure none
  else do
    let r ← pyIndexKey "result" verifyResult
    let hasSC ← pyIn "structuredContent" r
    let cond1 ← if hasSC then do
        let sc ← pyIndexKey "structuredContent" r
        pyIn "result" sc
      else pure false
    if cond1 then do
      let sc ← pyIndexKey "structuredContent" r
      let v ← pyIndexKey "result" sc
      pure (some (pyStrTop v))
    else do
      let hasC ← pyIn "content" r
      let cond2 ← if hasC then do
          let c ← pyIndexKey "content" r
          pure (pyTruthy c)
        else pure false
      if cond2 then do
        let c ← pyIndexKey "content" r
        let c0 ← pyIndexZero c
        let t ← pyIndexKey "text" c0
        pure (some (pyStrTop t))
      else pure (some (pyStrTop r))

/-- Character class `[a-f0-9-]` of the customer-id regular expression. -/
def isIdChar (c : Char) : Bool :=
  ('a' ≤ c && c ≤ 'f') || ('0' ≤ c && c ≤ '9') || c = '-'

/-- Greedy match of `ID: ([a-f0-9-]+)` anchored at the start of `l`,
returning the captured group. -/
def idMatchAt (l : List Char) : Option (List Char) :=
  if "ID: ".toList.isPrefixOf l then
    let grp := (l.drop 4).takeWhile isIdChar
    if grp.isEmpty then none else some grp
  else none

/-- Leftmost match of `re.search(r"ID: ([a-f0-9-]+)", s)`
(`services/mcp_client.py` line 327): scan positions left to right. -/
def findIdMatch : List Char → Option (List Char)
  | [] => none
  | c :: rest =>
    match idMatchAt (c :: rest) with
    | some g => some g
    | none => findIdMatch rest

/-- Embedding of `_extract_customer_id` (`services/mcp_client.py`
lines 325-328). -/
def extractCustomerId (info : String) : Option String :=
  (findIdMatch info.toList).map String.mk

/-- The `list_orders` follow-up tool request built on a successful id
extraction (`services/mcp_client.py` lines 90-98). -/
def listOrdersMsg (customerId : String) : Json :=
  .obj [("jsonrpc", .str "2.0"), ("method", .str "tools/call"),
        ("params", .obj [("name", .str "list_orders"),
          ("arguments", .obj [("customer_id", .str customerId)])]),
        ("id", .num 3)]

/-- Result of the verification HTTP call: transport exception, or a
status code with a body whose JSON parse may itself raise. -/
inductive HTTPResult where
  | exn
  | resp (status : Nat) (body : Except Unit Json)

/-- Embedding of `_handle_order_status` (`services/mcp_client.py`
lines 62-118) as a function of the verification call result. The
`CUSTOMERS[customer]` lookup happens before the `try` block, so an
unknown customer raises (outer `Except.error`); the router only calls
this handler for known customers. The pair is `(tool_msg, direct
response)`. -/
def handleOrderStatus (customer : String) (verify : HTTPResult) :
    Except Unit (Option Json × String) :=
  match customersLookup customer with
  | none => .error ()
  | some _ =>
    .ok (match verify with
      | .exn => (none, "Unable to verify customer at this time. Please try again later.")
      | .resp status body =>
        if status == 200 then
          match body with
          | .error _ =>
            (none, "Unable to verify customer at this time. Please try again later.")
          | .ok j =>
            match extractCustomerInfoE j with
            | .error _ =>
              (none, "Unable to verify customer at this time. Please try again later.")
            | .ok none =>
              (none, "Unable to verify customer information. Please check your credentials.")
            | .ok (some info) =>
              if !info.isEmpty then
                match extractCustomerId info with
                | some cid => (some (listOrdersMsg cid), "")
                | none => (none, "Customer verified: " ++ info.take 200 ++ "...")
              else
                (none, "Unable to verify customer information. Please check your credentials.")
        else
          (none, "Customer verification failed (status " ++ toString status
            ++ "). Please check your email and PIN."))

/-- A verification body whose extracted info text is non-empty and
contains no `ID: ...` match. -/
def c9ProbeBody : Json :=
  .obj [("result", .obj [("structuredContent",
    .obj [("result", .str "Customer John Doe verified")])])]

/-- A verification body whose extracted info text is the empty string. -/
def c9EmptyBody : Json :=
  .obj [("result", .obj [("structuredContent", .obj [("result", .str "")])])]

theorem splitOnChar_ne_nil (sep : Char) (s : List Char) :
    splitOnChar sep s ≠ [] := by
  cases s with
  | nil => simp [splitOnChar]
  | cons c rest =>
    simp only [splitOnChar]
    split
    · simp
    · split <;> simp

theorem join_map_sep (sep : Char) (s : List Char) :
    List.flatten ((splitOnChar sep s).map (fun l => l ++ [sep])) = s ++ [sep] := by
  induction s with
  | nil => simp [splitOnChar]
  | cons c rest ih =>
    by_cases h : c = sep
    · subst h
      simp only [splitOnChar, if_pos rfl, if_true, List.map_cons,
        List.flatten_cons, List.nil_append, List.cons_append]
      rw [ih]
    · simp only [splitOnChar, if_neg h]
      cases hsp : splitOnChar sep rest with
      | nil => exact absurd hsp (splitOnChar_ne_nil sep rest)
      | cons l ls =>
        rw [hsp] at ih
        simp only [List.map_cons, List.flatten_cons, List.cons_append,
          List.append_assoc] at ih ⊢
        rw [ih]

theorem streamChunks_false (ps : List (List Char)) (k : Nat) :
    streamChunks (fun _ => false) ps k = ps := by
  induction ps generalizing k with
  | nil => rfl
  | cons p rest ih => simp [streamChunks, ih]

theorem streamChunks_take (disc : Nat → Bool) (ps : List (List Char))
    (k : Nat) :
    streamChunks disc ps k = ps.take (stopCount disc ps.length k) := by
  induction ps generalizing k with
  | nil => rfl
  | cons p rest ih =>
    simp only [streamChunks, List.length_cons, stopCount]
    by_cases h : disc k
    · simp [h]
    · simp [h, ih]

theorem join_charPieces (s : List Char) : List.flatten (charPieces s) = s := by
  induction s with
  | nil => rfl
  | cons c rest ih => simp [charPieces, List.flatten_cons] at ih ⊢; exact ih

theorem streamByLine_join_false (t : List Char) :
    List.flatten (streamByLine (fun _ => false) t) = t ++ ['\n'] := by
  unfold streamByLine linePieces
  rw [streamChunks_false]
  exact join_map_sep '\n' t

theorem mem_charPieces_ne_done {p : List Char} {r : List Char}
    (h : p ∈ charPieces r) : p ≠ doneChunk := by
  simp only [charPieces, List.mem_map] at h
  obtain ⟨c, _, rfl⟩ := h
  intro hEq
  have h1 : ([c] : List Char).length = doneChunk.length :=
    congrArg List.length hEq
  rw [show doneChunk.length = 6 from rfl] at h1
  simp at h1

theorem mem_wordPieces_ne_done {p : List Char} {r : List Char}
    (h : p ∈ wordPieces r) : p ≠ doneChunk := by
  simp only [wordPieces, List.mem_map] at h
  obtain ⟨w, _, rfl⟩ := h
  intro hEq
  have h1 : (w ++ [' ']).getLast? = doneChunk.getLast? :=
    congrArg List.getLast? hEq
  rw [List.getLast?_concat, show doneChunk.getLast? = some ']' from rfl] at h1
  simp at h1

theorem mem_linePieces_ne_done {p : List Char} {r : List Char}
    (h : p ∈ linePieces r) : p ≠ doneChunk := by
  simp only [linePieces, List.mem_map] at h
  obtain ⟨l, _, rfl⟩ := h
  intro hEq
  have h1 : (l ++ ['\n']).getLast? = doneChunk.getLast? :=
    congrArg List.getLast? hEq
  rw [List.getLast?_concat, show doneChunk.getLast? = some ']' from rfl] at h1
  simp at h1

theorem mem_streamPieces_ne_done {cfg : StreamConfig} {intent : Option String}
    {r p : List Char} (h : p ∈ streamPieces cfg intent r) : p ≠ doneChunk := by
  unfold streamPieces at h
  split at h
  · exact mem_charPieces_ne_done h
  · split at h
    · exact mem_wordPieces_ne_done h
    · exact mem_linePieces_ne_done h

/-- C7: for every response text of length at most the character threshold
(200), with a consumer that never disconnects, concatenating the chunks of
the character-tier loop (`_stream_by_character`) reproduces the text. -/
theorem c7_character_roundtrip (disc : Nat → Bool) (t : List Char)
    (hdisc : ∀ k, disc k = false) (hlen : t.length ≤ 200) :
    List.flatten (streamByCharacter disc t) = t := by
  have hd : disc = fun _ => false := funext hdisc
  subst hd
  unfold streamByCharacter
  rw [streamChunks_false]
  exact join_charPieces t

theorem c7_character_roundtrip_witness :
    (∀ k, (fun _ => false : Nat → Bool) k = false) ∧
    ("Hi there!".toList.length ≤ 200) ∧
    List.flatten (streamByCharacter (fun _ => false) "Hi there!".toList)
      = "Hi there!".toList :=
  ⟨fun _ => rfl, by decide,
    c7_character_roundtrip (fun _ => false) "Hi there!".toList
      (fun _ => rfl) (by decide)⟩

/-- C2 counterexample: a 1001-character response (above the word threshold
1000) streamed by the line tier does not concatenate back to itself — the
loop yields `line + "\n"` for each piece of `split("\n")`, so one extra
newline is appended. -/
theorem c2_counterexample :
    (List.replicate 1001 'a').length > 1000 ∧
    List.flatten (streamByLine (fun _ => false) (List.replicate 1001 'a'))
      ≠ List.replicate 1001 'a' := by
  constructor
  · rw [List.length_replicate]
    norm_num
  · intro h
    rw [streamByLine_join_false] at h
    have h1 := congrArg List.length h
    rw [List.length_append, List.length_replicate] at h1
    simp at h1

/-- C2 amended: for every response text above the word threshold (1000),
with a consumer that never disconnects, concatenating the chunks of the
line-tier loop (`_stream_by_line`) yields the original text followed by
exactly one extra trailing newline. -/
theorem c2_line_roundtrip_amended (disc : Nat → Bool) (t : List Char)
    (hdisc : ∀ k, disc k = false) (hlen : t.length > 1000) :
    List.flatten (streamByLine disc t) = t ++ ['\n'] := by
  have hd : disc = fun _ => false := funext hdisc
  subst hd
  exact streamByLine_join_false t

set_option maxRecDepth 10000 in
theorem c2_line_roundtrip_amended_witness :
    (∀ k, (fun _ => false : Nat → Bool) k = false) ∧
    (List.replicate 1001 'a').length > 1000 ∧
    List.flatten (streamByLine (fun _ => false) (List.replicate 1001 'a'))
      = List.replicate 1001 'a' ++ ['\n'] :=
  ⟨fun _ => rfl, by decide,
    c2_line_roundtrip_amended (fun _ => false) (List.replicate 1001 'a')
      (fun _ => rfl) (by decide)⟩

/-- C8: for every configuration, response text, intent and disconnect
signal, the chunk sequence of `stream_response` ends with the `[DONE]`
sentinel, contains it exactly once, and the content chunks are exactly the
never-disconnected sequence cut off at the first check observing the
disconnect. -/
theorem c8_cancellation_done_sentinel (cfg : StreamConfig)
    (disc : Nat → Bool) (intent : Option String) (response : List Char) :
    (streamResponse cfg disc intent response).getLast? = some doneChunk ∧
    (streamResponse cfg disc intent response).count doneChunk = 1 ∧
    streamContent cfg disc intent response =
      (streamContent cfg (fun _ => false) intent response).take
        (stopCount disc (streamPieces cfg intent response).length 0) := by
  refine ⟨?_, ?_, ?_⟩
  · unfold streamResponse
    exact List.getLast?_concat _
  · unfold streamResponse
    rw [List.count_append]
    have hz : (streamContent cfg disc intent response).count doneChunk = 0 := by
      rw [List.count_eq_zero]
      intro hmem
      have hsub : streamContent cfg disc intent response ⊆
          streamPieces cfg intent response := by
        unfold streamContent
        rw [streamChunks_take]
        exact List.take_subset _ _
      exact mem_streamPieces_ne_done (hsub hmem) rfl
    rw [hz]
    simp
  · unfold streamContent
    rw [streamChunks_false, streamChunks_take]

/-- C1: evaluation of the truncation step at a response that starts with
"Found 200 products:" and has nine qualifying product lines (N = 9 at or
above the cap 8, truncation enabled): the output carries exactly eight
product entries but no "more products" trailer — the trailer branch
compares the already-capped list against the cap and is unreachable. -/
theorem c1_trailer_never_emitted :
    (((splitOnChar '\n' truncationProbe).drop 1).filter
        qualifiesAsProduct).length = 9 ∧
    (((splitOnChar '\n' (handleProductTruncation true 8 truncationProbe)).drop
        1).filter qualifiesAsProduct).length = 8 ∧
    isSubstring "more products".toList
      (handleProductTruncation true 8 truncationProbe) = false := by decide

/-- C10: the auth endpoint accepts donaldgarcia@example.net with pin 7912
and echoes the customer, and rejects pin 0000 with a null customer. -/
theorem c10_auth_scenario :
    authenticate (some "donaldgarcia@example.net") (some "7912")
      = (true, some "donaldgarcia@example.net") ∧
    authenticate (some "donaldgarcia@example.net") (some "0000")
      = (false, none) := by decide

/-- C4: when the supplied email is not a key of the credential table and
the pin field is absent, both sides of the comparison are `None` and the
endpoint reports success with the email echoed; in general the success
flag equals the comparison of the table lookup with the supplied pin. -/
theorem c4_auth_missing_pin (e : String) (h : customersLookup e = none) :
    authenticate (some e) none = (true, some e) ∧
    ∀ e2 p2, (authenticate e2 p2).1 = (customersGet e2 == p2) := by
  constructor
  · simp [authenticate, customersGet, h]
  · intro e2 p2
    rfl

theorem c4_auth_missing_pin_witness :
    customersLookup "nobody@example.com" = none ∧
    authenticate (some "nobody@example.com") none
      = (true, some "nobody@example.com") :=
  ⟨by decide, (c4_auth_missing_pin "nobody@example.com" (by decide)).1⟩

/-- C5: the MCP routing gate fires exactly when the classified category is
in the qualifying set and the confidence exceeds the 0.7 threshold; in
every other case the response delivered to the streaming stage is the
simple pattern-based fallback for the message and customer. -/
theorem c5_routing_gate (intent : String) (confidence : ℚ)
    (message customer mcpBranch : List Char) :
    (mcpTriggered intent confidence = true ↔
      intent ∈ qualifyingIntents ∧ confidence > 7 / 10) ∧
    (mcpTriggered intent confidence = false →
      chatDelivered intent confidence message customer mcpBranch
        = getSimpleResponse message customer) := by
  constructor
  · simp [mcpTriggered, List.contains, List.elem_iff, Bool.and_eq_true,
      decide_eq_true_iff]
  · intro h
    simp [chatDelivered, h]

theorem c5_routing_gate_witness :
    mcpTriggered "GREETING" (95 / 100) = false ∧
    chatDelivered "GREETING" (95 / 100) "hello friend".toList
        "glee@example.net".toList "ignored".toList
      = getSimpleResponse "hello friend".toList "glee@example.net".toList :=
  ⟨rfl,
    (c5_routing_gate "GREETING" (95 / 100) "hello friend".toList
      "glee@example.net".toList "ignored".toList).2 rfl⟩

/-- C3 counterexample: on a body carrying both a truthy `result` field and
an `error` field, the processing step yields the Content outcome, not the
error-field Failure the claim requires — the result field, not the error
field, takes precedence. -/
theorem c3_error_precedence_counterexample :
    processSuccessBody c3Body = .content (.str "hi") ∧
    processSuccessBody c3Body
      ≠ .failure "Service temporarily unavailable: boom. Please try again later." := by
  have h1 : processSuccessBody c3Body = .content (.str "hi") := rfl
  refine ⟨h1, ?_⟩
  rw [h1]
  intro h
  exact MCPOutcome.noConfusion h

/-- C3 amended: on HTTP 200 with a parseable JSON object body, a truthy
`result` field takes precedence and yields the extraction outcome; only
when the `result` field is absent or falsy does an `error` field yield
the "Service temporarily unavailable: message. Please try again later."
failure; with neither, the generic failure is returned. -/
theorem c3_result_precedence_amended (fs : List (String × Json)) :
    (∀ p, fs.find? (fun q => q.1 == "result") = some p → pyTruthy p.2 = true →
        processSuccessBody (Json.obj fs) = resultFieldOutcome p.2) ∧
    (hasTruthyResult (Json.obj fs) = false →
      ∀ p, fs.find? (fun q => q.1 == "error") = some p →
        processSuccessBody (Json.obj fs) = errorFieldOutcome p.2) ∧
    (hasTruthyResult (Json.obj fs) = false →
      (fs.find? (fun q => q.1 == "error")).isSome = false →
      processSuccessBody (Json.obj fs)
        = .failure "Unable to process your request at this time. Please try again.") := by
  refine ⟨?_, ?_, ?_⟩
  · intro p hp ht
    simp only [processSuccessBody, processSuccessAux, pyIn, pyIndexKey, hp,
      Option.isSome_some, Bind.bind, Except.bind, pure, Except.pure, ht,
      Bool.and_self, if_true]
    cases hx : extractFromResult p.2 with
    | ok out => simp [resultFieldOutcome, hx]
    | error e => simp [resultFieldOutcome, hx]
  · intro hfalse p hp
    simp only [processSuccessBody, processSuccessAux, pyIn, pyIndexKey,
      Bind.bind, Except.bind, pure, Except.pure]
    cases hr : fs.find? (fun q => q.1 == "result") with
    | none =>
      simp only [hr, Option.isSome_none, Bool.false_and, if_false, hp,
        Option.isSome_some, if_true]
      cases p2 : p.2 <;> simp [pyGet, errorFieldOutcome, p2]
    | some pr =>
      have hprt : pyTruthy pr.2 = false := by
        simp only [hasTruthyResult, hr] at hfalse
        exact hfalse
      simp only [hr, Option.isSome_some, hprt, Bool.and_false, if_false, hp,
        if_true]
      cases p2 : p.2 <;> simp [pyGet, errorFieldOutcome, p2]
  · intro hfalse hnoerr
    simp only [processSuccessBody, processSuccessAux, pyIn, pyIndexKey,
      Bind.bind, Except.bind, pure, Except.pure]
    cases hr : fs.find? (fun q => q.1 == "result") with
    | none =>
      simp [hr, hnoerr]
    | some pr =>
      have hprt : pyTruthy pr.2 = false := by
        simp only [hasTruthyResult, hr] at hfalse
        exact hfalse
      simp [hr, hprt, hnoerr]

theorem c3_result_precedence_amended_witness :
    hasTruthyResult (Json.obj c3ErrorOnlyBody) = false ∧
    c3ErrorOnlyBody.find? (fun q => q.1 == "error")
      = some ("error", Json.obj [("message", Json.str "down")]) ∧
    processSuccessBody (Json.obj c3ErrorOnlyBody)
      = errorFieldOutcome (Json.obj [("message", Json.str "down")]) :=
  ⟨rfl, rfl,
    (c3_result_precedence_amended c3ErrorOnlyBody).2.1 rfl
      ("error", Json.obj [("message", Json.str "down")]) rfl⟩

/-- C6: whenever the classification attempt raises anywhere inside the
`try` block — transport failure or non-JSON / malformed model output that
makes `json.loads` raise — `classify_intent` absorbs the error and
returns exactly the fallback result with intent OTHER, confidence 0.5,
empty entities and the reasoning "Classification failed". -/
theorem c6_classifier_fallback (transport : Except String String)
    (parse : String → Except String Json)
    (h : exceptRaised (classifyAttempt transport parse) = true) :
    classifyIntent transport parse = fallbackResult := by
  cases hc : classifyAttempt transport parse with
  | error e => simp [classifyIntent, hc]
  | ok r => rw [hc] at h; simp [exceptRaised] at h

theorem c6_classifier_fallback_witness :
    exceptRaised (classifyAttempt (.error "connection error")
      (fun _ => .ok .null)) = true ∧
    classifyIntent (.error "connection error") (fun _ => .ok .null)
      = fallbackResult :=
  ⟨rfl, c6_classifier_fallback _ _ rfl⟩

set_option maxRecDepth 10000 in
/-- C9 counterexample: verification returns HTTP 200 with a `result`
field whose extracted info text is the empty string — it contains no
`ID: ...` match, yet the handler answers with the "Unable to verify
customer information" message instead of the "Customer verified: ..."
response the claim requires, because the empty info string is falsy. -/
theorem c9_empty_info_counterexample :
    extractCustomerInfoE c9EmptyBody = .ok (some "") ∧
    handleOrderStatus "donaldgarcia@example.net" (.resp 200 (.ok c9EmptyBody))
      = .ok (none, "Unable to verify customer information. Please check your credentials.") ∧
    "Unable to verify customer information. Please check your credentials."
      ≠ "Customer verified: " ++ ("" : String).take 200 ++ "..." := by
  refine ⟨rfl, rfl, ?_⟩
  decide

/-- C9 amended: for an ORDER_STATUS turn by a customer in the credential
table, when verification returns HTTP 200 with a `result` field whose
extracted info text is non-empty and contains no `ID: <hex-with-dashes>`
match, the router issues no second tool call and returns the direct
response "Customer verified: " followed by at most the first 200
characters of the info text and "...". -/
theorem c9_order_status_no_id_amended (customer pin : String) (body : Json)
    (info : String)
    (hc : customersLookup customer = some pin)
    (hext : extractCustomerInfoE body = .ok (some info))
    (hne : info.isEmpty = false)
    (hnoid : findIdMatch info.toList = none) :
    handleOrderStatus customer (.resp 200 (.ok body))
      = .ok (none, "Customer verified: " ++ info.take 200 ++ "...") := by
  have hnoid2 : findIdMatch info.data = none := hnoid
  unfold handleOrderStatus
  rw [hc]
  simp [hext, extractCustomerId, hnoid2, hne]

set_option maxRecDepth 10000 in
theorem c9_order_status_no_id_amended_witness :
    customersLookup "donaldgarcia@example.net" = some "7912" ∧
    extractCustomerInfoE c9ProbeBody = .ok (some "Customer John Doe verified") ∧
    ("Customer John Doe verified" : String).isEmpty = false ∧
    findIdMatch "Customer John Doe verified".toList = none ∧
    handleOrderStatus "donaldgarcia@example.net" (.resp 200 (.ok c9ProbeBody))
      = .ok (none, "Customer verified: "
          ++ ("Customer John Doe verified" : String).take 200 ++ "...") :=
  ⟨rfl, rfl, rfl, by decide,
    c9_order_status_no_id_amended "donaldgarcia@example.net" "7912" c9ProbeBody
      "Customer John Doe verified" rfl rfl rfl (by decide)⟩
